import Mathlib

/-!
Formal model of the playwright-ai core pipeline.

The definitions below are a shallow embedding of the repository's source:
the data model of `src/types/index.ts`, the prompt compiler and completion
parser of the AI module (`createPrompt`, `generateTestCode`), and the
artifact store / execution runner / result formatter of the Playwright
module (`saveTestFile`, `runTest`, `formatTestResult`).  Effectful
boundaries (environment variables, HTTP responses, the spawned subprocess,
the filesystem, the clock) are passed in as explicit parameters so that the
remaining logic is the pure code of the repository.
-/

namespace PlaywrightAI

/-- Browser choice, the `browser` field of `TestOptions` in
`src/types/index.ts` (`'chromium' | 'firefox' | 'webkit'`). -/
inductive Browser where
  | chromium
  | firefox
  | webkit
  deriving DecidableEq, Repr

/-- String value of a browser choice, as it is interpolated into commands
and prompts. -/
def browserName : Browser → String
  | .chromium => "chromium"
  | .firefox => "firefox"
  | .webkit => "webkit"

/-- TestOptions of `src/types/index.ts`: every field is optional.  An
unset field is `none`; JavaScript truthiness of a set numeric field is
modelled at each use site (the source guards `timeout` with a truthiness
test, so `some 0` behaves like unset there). -/
structure TestOptions where
  browser : Option Browser
  headless : Option Bool
  screenshot : Option Bool
  timeout : Option Nat
  deriving DecidableEq, Repr

/-- TestScenario of `src/types/index.ts`. -/
structure TestScenario where
  description : String
  url : Option String
  options : Option TestOptions
  deriving DecidableEq, Repr

/-- GeneratedTest of `src/types/index.ts`. -/
structure GeneratedTest where
  code : String
  filename : String
  explanation : Option String
  deriving DecidableEq, Repr

/-- TestResult of `src/types/index.ts`. -/
structure TestResult where
  success : Bool
  duration : Nat
  error : Option String
  screenshotPath : Option String
  logs : List String
  deriving DecidableEq, Repr

/-- AIPrompt of `src/types/index.ts`. -/
structure AIPrompt where
  system : String
  user : String
  deriving DecidableEq, Repr

/-- AIResponse of `src/types/index.ts`. -/
structure AIResponse where
  testCode : String
  explanation : String
  deriving DecidableEq, Repr

/-- Truthiness of an optional JavaScript string: present and non-empty.
Used to model guards such as `if (scenario.url)`. -/
def strTruthy : Option String → Option String
  | some s => if s = "" then none else some s
  | none => none

/- ------------------------------------------------------------------ -/
/- Response parser (the inline extraction in `generateTestCode`,
   `src/ai/index.ts`):
   `content.match(/```typescript\n([\s\S]*?)```/)` and
   `content.replace(/```typescript\n[\s\S]*?```/, "").trim()`.        -/
/- ------------------------------------------------------------------ -/

/-- Boolean test that `p` is a leading segment of `s`. -/
def isPre : List Char → List Char → Bool
  | [], _ => true
  | _ :: _, [] => false
  | a :: as, b :: bs => a == b && isPre as bs

/-- Index of the first occurrence of the pattern `p` in `s`, if any.
This models where a JavaScript regex of a string literal first matches. -/
def firstOccur (p : List Char) : List Char → Option Nat
  | [] => if isPre p [] then some 0 else none
  | c :: rest =>
      if isPre p (c :: rest) then some 0
      else (firstOccur p rest).map (· + 1)

/-- Whitespace as removed by `String.prototype.trim`: ASCII whitespace,
no-break space, BOM and the Unicode line separators. -/
def isJsWhitespace (c : Char) : Bool :=
  c = ' ' || c = '\t' || c = '\n' || c = '\r' || c = '\x0b' || c = '\x0c' ||
  c = '\u00A0' || c = '\uFEFF' || c = '\u2028' || c = '\u2029'

/-- Model of `String.prototype.trim` on character lists. -/
def trimL (s : List Char) : List Char :=
  ((s.dropWhile isJsWhitespace).reverse.dropWhile isJsWhitespace).reverse

/-- Opening fence recognised by the extraction regex. -/
def openFenceL : List Char := ("```typescript\n").data

/-- Closing fence recognised by the extraction regex. -/
def closeFenceL : List Char := ("```").data

/-- Completion parsing on character lists, mirroring the extraction in
`generateTestCode`: the lazy regex matches at the first opening fence that
is followed by a closing fence; the captured group is everything strictly
between them; the explanation is the completion with the whole matched
span removed, then trimmed.  If the regex does not match, the code is
empty and the explanation is the trimmed completion. -/
def parseCompletionL (content : List Char) : List Char × List Char :=
  match firstOccur openFenceL content with
  | none => ([], trimL content)
  | some i =>
      let tail := content.drop (i + openFenceL.length)
      match firstOccur closeFenceL tail with
      | none => ([], trimL content)
      | some j =>
          (tail.take j,
           trimL (content.take i ++ tail.drop (j + closeFenceL.length)))

/-- Completion parsing on strings: `(testCode, explanation)` as computed
inside `generateTestCode` of `src/ai/index.ts`. -/
def parseCompletion (content : String) : String × String :=
  let r := parseCompletionL content.data
  (String.mk r.1, String.mk r.2)

/-- Decision of whether the completion contains a complete tagged fenced
block, i.e. whether the extraction regex matches at all. -/
def hasTsBlock (content : List Char) : Bool :=
  match firstOccur openFenceL content with
  | none => false
  | some i =>
      (firstOccur closeFenceL (content.drop (i + openFenceL.length))).isSome

/- ------------------------------------------------------------------ -/
/- Prompt compiler (`createPrompt` of the AI module, base-URL variant). -/
/- ------------------------------------------------------------------ -/

/-- SYSTEM_PROMPT of the AI module, the fixed instructional system text. -/
def SYSTEM_PROMPT : String :=
  "あなたはPlaywrightを使用したE2Eテストの専門家です。\nユーザーから提供されるテストシナリオに基づいて、Playwrightのテストコードを生成してください。\n\n以下のガイドラインに従ってください：\n\n1. テストコードはTypeScriptで記述し、Playwrightの最新のベストプラクティスに従ってください。\n2. テストコードは実行可能で、エラーがないようにしてください。\n3. テストコードには適切なアサーションを含めてください。\n4. コードには詳細なコメントを含め、各ステップの目的を説明してください。\n5. テストコードは以下の形式で返してください：\n\n```typescript\n// ここにテストコードを記述\n```\n\n6. テストコードの後に、コードの説明を日本語で提供してください。\n\n注意：\n- URLが指定されていない場合は、テストコードの中でURLを設定する部分をコメントアウトしてください。\n- ブラウザの種類、ヘッドレスモード、スクリーンショットの設定などのオプションが指定されている場合は、それに従ってください。\n- 指定がない場合は、デフォルト値（chromium、ヘッドレスモード有効、スクリーンショット無効）を使用してください。\n"

/-- Leading sentence of the user prompt. -/
def promptHeader : String :=
  "以下のテストシナリオに基づいて、Playwrightのテストコードを生成してください：\n\n"

/-- Label of the target-URL line of the user prompt. -/
def urlLabel : String := "テスト対象のURL: "

/-- Label of the browser directive line. -/
def browserLabel : String := "- ブラウザ: "

/-- Label of the headless directive line. -/
def headlessLabel : String := "- ヘッドレスモード: "

/-- Label of the screenshot directive line. -/
def screenshotLabel : String := "- スクリーンショット: "

/-- Label of the timeout directive line. -/
def timeoutLabel : String := "- タイムアウト: "

/-- Word used for an enabled boolean option. -/
def enabledWord : String := "有効"

/-- Word used for a disabled boolean option. -/
def disabledWord : String := "無効"

/-- Prompt compiler `createPrompt`.  The ambient default base URL (the
`TEST_TARGET_BASE_URL` environment variable read by `getBaseUrl`) is
passed explicitly as `baseUrl`; `none` models an unset variable.  The
builder mirrors the source line by line: description, then the
target-URL line (scenario URL first, ambient base URL as fallback), then
one directive line per set option in the fixed order browser, headless,
screenshot, timeout. -/
def createPrompt (baseUrl : Option String) (scenario : TestScenario) : AIPrompt :=
  let userPrompt := promptHeader ++ scenario.description ++ "\n\n"
  let userPrompt :=
    match strTruthy scenario.url with
    | some u => userPrompt ++ urlLabel ++ u ++ "\n\n"
    | none =>
      match strTruthy baseUrl with
      | some b => userPrompt ++ urlLabel ++ b ++ "\n\n"
      | none => userPrompt
  let userPrompt :=
    match scenario.options with
    | none => userPrompt
    | some o =>
      let userPrompt :=
        match o.browser with
        | some b => userPrompt ++ browserLabel ++ browserName b ++ "\n"
        | none => userPrompt
      let userPrompt :=
        match o.headless with
        | some h =>
            userPrompt ++ headlessLabel ++
              (if h then enabledWord else disabledWord) ++ "\n"
        | none => userPrompt
      let userPrompt :=
        match o.screenshot with
        | some s =>
            userPrompt ++ screenshotLabel ++
              (if s then enabledWord else disabledWord) ++ "\n"
        | none => userPrompt
      let userPrompt :=
        match o.timeout with
        | some t =>
            if t = 0 then userPrompt
            else userPrompt ++ timeoutLabel ++ toString t ++ "ms\n"
        | none => userPrompt
      userPrompt
  { system := SYSTEM_PROMPT, user := userPrompt }

/-- Specification-side view of the target-URL line: the line the compiler
adds for a given scenario URL and ambient base URL, empty when neither is
available. -/
def urlLine (url baseUrl : Option String) : String :=
  match strTruthy url with
  | some u => urlLabel ++ u ++ "\n\n"
  | none =>
    match strTruthy baseUrl with
    | some b => urlLabel ++ b ++ "\n\n"
    | none => ""

/-- Specification-side view of the browser directive line. -/
def browserLine : Option Browser → String
  | some b => browserLabel ++ browserName b ++ "\n"
  | none => ""

/-- Specification-side view of the headless directive line. -/
def headlessLine : Option Bool → String
  | some h => headlessLabel ++ (if h then enabledWord else disabledWord) ++ "\n"
  | none => ""

/-- Specification-side view of the screenshot directive line. -/
def screenshotLine : Option Bool → String
  | some s => screenshotLabel ++ (if s then enabledWord else disabledWord) ++ "\n"
  | none => ""

/-- Specification-side view of the timeout directive line (the source
guards the field with JavaScript truthiness, so a zero timeout adds no
line). -/
def timeoutLine : Option Nat → String
  | some t => if t = 0 then "" else timeoutLabel ++ toString t ++ "ms\n"
  | none => ""

/-- Concatenation of the four directive lines in their fixed order. -/
def optionLines (o : TestOptions) : String :=
  browserLine o.browser ++ headlessLine o.headless ++
    screenshotLine o.screenshot ++ timeoutLine o.timeout

/-- Directive-line block of an optional options value. -/
def optionsPart : Option TestOptions → String
  | some o => optionLines o
  | none => ""

/- ------------------------------------------------------------------ -/
/- Generation provider (`generateTestCode` of the AI module).          -/
/- ------------------------------------------------------------------ -/

/-- Observable part of the provider's HTTP response, common to the hosted
and the local branch of `generateTestCode`: the `ok` flag and
`statusText` of the fetch response, the `error.message` field of the
JSON error body when the body exposes one, and the normalized completion
string (`content[0].text` for the hosted branch,
`choices[0].message.content` for the local branch) on success. -/
structure ProviderResponse where
  ok : Bool
  statusText : String
  errorMessage : Option String
  content : String
  deriving DecidableEq, Repr

/-- Message of the error thrown inside `generateTestCode` on a
non-successful response: the upstream `error.message` when truthy, else
the response's status text. -/
def apiErrorText (r : ProviderResponse) : String :=
  "API error: " ++
    (match r.errorMessage with
     | some m => if m = "" then r.statusText else m
     | none => r.statusText)

/-- Wrapper text added by the outer catch of `generateTestCode`. -/
def generateFailureText : String := "AIによるテストコード生成に失敗しました: "

/-- Model of `generateTestCode` after the HTTP exchange: on a successful
response the completion is parsed into code and explanation; on a
non-successful response the inner `API error` exception is thrown and
re-wrapped by the outer catch.  Both provider branches share this
handling. -/
def generateTestCode (r : ProviderResponse) : Except String AIResponse :=
  if r.ok then
    let parsed := parseCompletion r.content
    .ok { testCode := parsed.1, explanation := parsed.2 }
  else
    .error (generateFailureText ++ apiErrorText r)

/- ------------------------------------------------------------------ -/
/- Artifact store (`saveTestFile` of the Playwright module).           -/
/- ------------------------------------------------------------------ -/

/-- Plain model of the filesystem: an association list from paths to file
contents, newest write first. -/
abbrev FileSystem := List (String × String)

/-- Model of `fs.writeFile`: the new content shadows any earlier write to
the same path. -/
def writeFile (fs : FileSystem) (p c : String) : FileSystem := (p, c) :: fs

/-- Model of reading a file back: the most recent content written to the
path, if any. -/
def readFile : FileSystem → String → Option String
  | [], _ => none
  | (q, c) :: rest, p => if q = p then some c else readFile rest p

/-- TEST_DIR of the Playwright module: `path.join(process.cwd(), "tests")`
for an explicit working directory. -/
def testDirPath (cwd : String) : String := cwd ++ "/tests"

/-- Default filename used when the caller supplies none:
`test-<millisecond-timestamp>.spec.ts`, with the clock passed in as
`now`. -/
def defaultFilename (now : Nat) : String :=
  "test-" ++ toString now ++ ".spec.ts"

/-- Effective filename of `saveTestFile`: the provided filename when
truthy, else the timestamp-derived default
(`test.filename || defaultFilename`). -/
def effectiveFilename (test : GeneratedTest) (now : Nat) : String :=
  if test.filename = "" then defaultFilename now else test.filename

/-- Model of `saveTestFile`: writes `test.code` to the resolved path under
the artifacts directory and returns the updated filesystem with that
path.  Directory creation and I/O failure are outside the pure model. -/
def saveTestFile (cwd : String) (now : Nat) (fs : FileSystem)
    (test : GeneratedTest) : FileSystem × String :=
  let filename := effectiveFilename test now
  let filePath := testDirPath cwd ++ "/" ++ filename
  (writeFile fs filePath test.code, filePath)

/- ------------------------------------------------------------------ -/
/- Execution runner (`runTest` of the Playwright module).              -/
/- ------------------------------------------------------------------ -/

/-- Base invocation of the external engine. -/
def baseCommand : String := "npx playwright test"

/-- Optional-chaining access `options?.browser`. -/
def optBrowser : Option TestOptions → Option Browser
  | some o => o.browser
  | none => none

/-- Optional-chaining access `options?.headless`. -/
def optHeadless : Option TestOptions → Option Bool
  | some o => o.headless
  | none => none

/-- Optional-chaining access `options?.timeout`. -/
def optTimeout : Option TestOptions → Option Nat
  | some o => o.timeout
  | none => none

/-- Command string built at the top of `runTest`: base invocation, the
positional file path, then `--project=<browser>` when the browser option
is set, `--headed` when headless is explicitly false, and
`--timeout=<ms>` when the timeout option is truthy. -/
def runTestCommand (testFilePath : String) (options : Option TestOptions) :
    String :=
  let command := baseCommand
  let command := command ++ " " ++ testFilePath
  let command :=
    match optBrowser options with
    | some b => command ++ " --project=" ++ browserName b
    | none => command
  let command :=
    if optHeadless options = some false then command ++ " --headed"
    else command
  let command :=
    match optTimeout options with
    | some t =>
        if t = 0 then command else command ++ " --timeout=" ++ toString t
    | none => command
  command

/-- Settled state of the awaited `execPromise(command)`: either a fulfilled
promise carrying the captured output, or a rejection carrying whatever
partial output and message the error object exposes. -/
inductive ExecOutcome where
  | exitOk (stdout stderr : String)
  | exitErr (stdout stderr message : Option String)
  deriving DecidableEq, Repr

/-- Label of the command-line log entry. -/
def cmdLogLabel : String := "実行コマンド: "

/-- Marker log entry opening the stdout block. -/
def stdoutMarker : String := "標準出力:"

/-- Marker log entry opening the stderr block. -/
def stderrMarker : String := "標準エラー出力:"

/-- Generic fallback error message of a failed run whose error object
carries no message. -/
def execFallback : String := "テスト実行中にエラーが発生しました"

/-- Error message stored in a failed TestResult:
`execError.message || execFallback`. -/
def execErrorText : Option String → String
  | some m => if m = "" then execFallback else m
  | none => execFallback

/-- Specification-side view of the stdout block pushed on the failure
path (pushed only when the error object exposes truthy stdout). -/
def stdoutBlockOpt : Option String → List String
  | some s => if s = "" then [] else [stdoutMarker, s]
  | none => []

/-- Specification-side view of the stderr block pushed on the failure
path. -/
def stderrBlockOpt : Option String → List String
  | some s => if s = "" then [] else [stderrMarker, s]
  | none => []

/-- Model of `runTest` given the settled subprocess outcome and the
measured duration.  Every exec outcome — a fulfilled promise as well as a
rejection, which the inner catch absorbs — yields a returned TestResult;
the outer catch has no reachable throw site in the pure logic, so the
model is total. -/
def runTest (testFilePath : String) (options : Option TestOptions)
    (durationMs : Nat) (outcome : ExecOutcome) : TestResult :=
  let command := runTestCommand testFilePath options
  let logs : List String := [cmdLogLabel ++ command]
  match outcome with
  | .exitOk stdout stderr =>
      let logs := logs ++ [stdoutMarker, stdout]
      let logs :=
        if stderr = "" then logs else logs ++ [stderrMarker, stderr]
      { success := true, duration := durationMs, error := none,
        screenshotPath := none, logs := logs }
  | .exitErr stdout stderr message =>
      let logs :=
        match stdout with
        | some s => if s = "" then logs else logs ++ [stdoutMarker, s]
        | none => logs
      let logs :=
        match stderr with
        | some s => if s = "" then logs else logs ++ [stderrMarker, s]
        | none => logs
      { success := false, duration := durationMs,
        error := some (match message with
          | some m => if m = "" then execFallback else m
          | none => execFallback),
        screenshotPath := none, logs := logs }

/-- Specification-side view of the project-selector flag. -/
def projectFlag : Option Browser → String
  | some b => " --project=" ++ browserName b
  | none => ""

/-- Specification-side view of the headed flag. -/
def headedFlag (h : Option Bool) : String :=
  if h = some false then " --headed" else ""

/-- Specification-side view of the timeout flag (truthiness guard as in
the source). -/
def timeoutFlag : Option Nat → String
  | some t => if t = 0 then "" else " --timeout=" ++ toString t
  | none => ""

/- ------------------------------------------------------------------ -/
/- Result formatter (`formatTestResult` of the Playwright module).     -/
/- ------------------------------------------------------------------ -/

/-- Status line of a successful run. -/
def successLine : String := "✅ テストが成功しました\n"

/-- Status line of a failed run. -/
def failureLine : String := "❌ テストが失敗しました\n"

/-- Label of the error line of the report. -/
def errorLabel : String := "エラー: "

/-- Label of the duration line of the report. -/
def durationLabel : String := "実行時間: "

/-- Literal header of the log section of the report. -/
def logHeader : String := "--- ログ ---\n"

/-- Model of `formatTestResult`, mirroring the sequential `output +=`
construction of the source. -/
def formatTestResult (result : TestResult) : String :=
  let output : String := ""
  let output :=
    if result.success then output ++ successLine
    else
      let output := output ++ failureLine
      match result.error with
      | some e => if e = "" then output else output ++ errorLabel ++ e ++ "\n"
      | none => output
  let output := output ++ durationLabel ++ toString result.duration ++ "ms\n\n"
  let output := output ++ logHeader
  let output := output ++ String.intercalate "\n" result.logs
  output

/-- Specification-side view of the status part of the report. -/
def statusPart (result : TestResult) : String :=
  if result.success then successLine
  else
    failureLine ++
      (match result.error with
       | some e => if e = "" then "" else errorLabel ++ e ++ "\n"
       | none => "")

/-- Specification-side view of the duration line of the report. -/
def durationPart (d : Nat) : String := durationLabel ++ toString d ++ "ms\n\n"

end PlaywrightAI

namespace PlaywrightAI

theorem isPre_iff (p s : List Char) : isPre p s = true ↔ ∃ t, s = p ++ t := by
  induction p generalizing s with
  | nil => simp [isPre]
  | cons a as ih =>
    cases s with
    | nil => simp [isPre]
    | cons b bs =>
      simp only [isPre, Bool.and_eq_true, beq_iff_eq, ih, List.cons_append]
      constructor
      · rintro ⟨rfl, t, rfl⟩
        exact ⟨t, rfl⟩
      · rintro ⟨t, h⟩
        cases h
        exact ⟨rfl, t, rfl⟩

theorem firstOccur_isPre {p s : List Char} {i : Nat}
    (h : firstOccur p s = some i) : isPre p (s.drop i) = true := by
  induction s generalizing i with
  | nil =>
    simp only [firstOccur] at h
    split at h
    · cases h
      simpa using ‹isPre p [] = true›
    · cases h
  | cons c rest ih =>
    simp only [firstOccur] at h
    split at h
    · cases h
      simpa using ‹isPre p (c :: rest) = true›
    · cases hr : firstOccur p rest with
      | none => rw [hr] at h; cases h
      | some j =>
        rw [hr] at h
        simp only [Option.map_some'] at h
        cases h
        simpa [List.drop] using ih hr

theorem firstOccur_min {p s : List Char} {i : Nat}
    (h : firstOccur p s = some i) :
    ∀ k, k < i → isPre p (s.drop k) = false := by
  induction s generalizing i with
  | nil =>
    simp only [firstOccur] at h
    split at h
    · cases h
      intro k hk
      exact absurd hk (Nat.not_lt_zero k)
    · cases h
  | cons c rest ih =>
    simp only [firstOccur] at h
    split at h
    · cases h
      intro k hk
      exact absurd hk (Nat.not_lt_zero k)
    · cases hr : firstOccur p rest with
      | none => rw [hr] at h; cases h
      | some j =>
        rw [hr] at h
        simp only [Option.map_some'] at h
        cases h
        intro k hk
        cases k with
        | zero =>
          simpa using Bool.of_not_eq_true ‹¬ isPre p (c :: rest) = true›
        | succ k' =>
          have : k' < j := Nat.lt_of_succ_lt_succ hk
          simpa [List.drop] using ih hr k' this

theorem firstOccur_lt_length {p s : List Char} {i : Nat}
    (hp : p ≠ []) (h : firstOccur p s = some i) : i < s.length := by
  have hpre := firstOccur_isPre h
  by_contra hle
  have hnil : s.drop i = [] := by
    exact List.drop_eq_nil_iff.mpr (Nat.le_of_not_lt hle)
  rw [hnil] at hpre
  cases p with
  | nil => exact hp rfl
  | cons a as => simp [isPre] at hpre

theorem createPrompt_user_eq (baseUrl : Option String)
    (scenario : TestScenario) :
    (createPrompt baseUrl scenario).user =
      promptHeader ++ scenario.description ++ "\n\n" ++
        urlLine scenario.url baseUrl ++ optionsPart scenario.options := by
  obtain ⟨desc, url, opts⟩ := scenario
  simp only [createPrompt]
  rcases hsu : strTruthy url with _ | u <;>
  rcases hsb : strTruthy baseUrl with _ | b <;>
  rcases opts with _ | ⟨ob, oh, os, ot⟩ <;>
  (try rcases ob with _ | bb) <;>
  (try rcases oh with _ | hh) <;>
  (try rcases os with _ | ss) <;>
  (try rcases ot with _ | tt) <;>
  (try by_cases htz : tt = 0) <;>
  simp_all [urlLine, optionsPart, optionLines, browserLine, headlessLine,
    screenshotLine, timeoutLine, String.append_assoc, String.append_empty,
    -String.reduceAppend]

theorem runTestCommand_eq (path : String) (options : Option TestOptions) :
    runTestCommand path options =
      baseCommand ++ " " ++ path ++ projectFlag (optBrowser options) ++
        headedFlag (optHeadless options) ++ timeoutFlag (optTimeout options) := by
  rcases options with _ | ⟨ob, oh, os, ot⟩ <;>
  (try rcases ob with _ | bb) <;>
  (try rcases oh with _ | (_ | _)) <;>
  (try rcases ot with _ | tt) <;>
  (try by_cases htz : tt = 0) <;>
  simp_all [runTestCommand, optBrowser, optHeadless, optTimeout, projectFlag,
    headedFlag, timeoutFlag, String.append_assoc, String.append_empty,
    -String.reduceAppend]

/-- Claim C1: for every completion, the parser extracts the first fenced
block tagged `typescript` — the completion decomposes as a prefix, the
opening fence, the extracted code, the closing fence and a remainder,
where no opening fence starts before the chosen one and no closing fence
starts inside the extracted code; the explanation is the completion with
that span removed and then trimmed.  When no such block exists the code
is empty and the explanation is the trimmed original.  The parse is a
total function, and on the spec's example it returns code `"code\n"` and
explanation `"Explanation."`. -/
theorem parseCompletion_extracts_first_fenced_block (content : List Char) :
    (hasTsBlock content = false →
      parseCompletionL content = ([], trimL content))
    ∧ (hasTsBlock content = true →
      ∃ pre rest,
        content = pre ++ openFenceL ++ (parseCompletionL content).1 ++
          closeFenceL ++ rest ∧
        (parseCompletionL content).2 = trimL (pre ++ rest) ∧
        (∀ k, k < pre.length → isPre openFenceL (content.drop k) = false) ∧
        (∀ k, k < (parseCompletionL content).1.length →
          isPre closeFenceL
            (((parseCompletionL content).1 ++ closeFenceL ++ rest).drop k) =
              false))
    ∧ parseCompletion ("```typescript\ncode\n```\n\nExplanation.") =
        ("code\n", "Explanation.") := by
  refine ⟨?_, ?_, by decide⟩
  · intro h
    cases hi : firstOccur openFenceL content with
    | none => simp [parseCompletionL, hi]
    | some i =>
      cases hj : firstOccur closeFenceL (content.drop (i + openFenceL.length)) with
      | none => simp [parseCompletionL, hi, hj]
      | some j =>
        exfalso
        simp [hasTsBlock, hi, hj] at h
  · intro h
    cases hi : firstOccur openFenceL content with
    | none => exfalso; simp [hasTsBlock, hi] at h
    | some i =>
      have h2 : (firstOccur closeFenceL
          (content.drop (i + openFenceL.length))).isSome = true := by
        simpa [hasTsBlock, hi] using h
      obtain ⟨j, hj⟩ := Option.isSome_iff_exists.mp h2
      have hiPre := firstOccur_isPre hi
      obtain ⟨t0, ht0⟩ := (isPre_iff _ _).mp hiPre
      have hT : content.drop (i + openFenceL.length) = t0 := by
        have h1 : content.drop (i + openFenceL.length) =
            (content.drop i).drop openFenceL.length := by
          rw [List.drop_drop, Nat.add_comm]
        rw [h1, ht0, List.drop_left]
      rw [hT] at hj
      have hjPre := firstOccur_isPre hj
      obtain ⟨u, hu⟩ := (isPre_iff _ _).mp hjPre
      have hU : t0.drop (j + closeFenceL.length) = u := by
        have h1 : t0.drop (j + closeFenceL.length) =
            (t0.drop j).drop closeFenceL.length := by
          rw [List.drop_drop, Nat.add_comm]
        rw [h1, hu, List.drop_left]
      have hparse : parseCompletionL content =
          (t0.take j, trimL (content.take i ++ u)) := by
        simp only [parseCompletionL, hi, hT, hj, hU]
      have hilt : i < content.length := firstOccur_lt_length (by decide) hi
      have hjlt : j < t0.length := firstOccur_lt_length (by decide) hj
      have hpreLen : (content.take i).length = i := by
        simp [List.length_take, Nat.min_eq_left hilt.le]
      have hcodeLen : (t0.take j).length = j := by
        simp [List.length_take, Nat.min_eq_left hjlt.le]
      have htotal : t0.take j ++ closeFenceL ++ u = t0 := by
        rw [List.append_assoc, ← hu, List.take_append_drop]
      refine ⟨content.take i, u, ?_, ?_, ?_, ?_⟩
      · rw [hparse]
        calc content = content.take i ++ content.drop i :=
              (List.take_append_drop i content).symm
          _ = content.take i ++ (openFenceL ++ t0) := by rw [ht0]
          _ = content.take i ++ (openFenceL ++ (t0.take j ++ t0.drop j)) := by
              rw [List.take_append_drop]
          _ = content.take i ++ (openFenceL ++ (t0.take j ++ (closeFenceL ++ u))) := by
              rw [hu]
          _ = content.take i ++ openFenceL ++ t0.take j ++ closeFenceL ++ u := by
              simp [List.append_assoc]
      · rw [hparse]
      · intro k hk
        rw [hpreLen] at hk
        exact firstOccur_min hi k hk
      · intro k hk
        rw [hparse] at hk ⊢
        rw [hcodeLen] at hk
        simp only [htotal]
        exact firstOccur_min hj k hk

/-- Witness for C1 at a completion with no fenced block. -/
theorem parseCompletion_extracts_first_fenced_block_witness :
    hasTsBlock (("plain text, no fence").data) = false ∧
    parseCompletionL (("plain text, no fence").data) =
      ([], trimL (("plain text, no fence").data)) :=
  ⟨by decide,
   (parseCompletion_extracts_first_fenced_block
      (("plain text, no fence").data)).1 (by decide)⟩

/-- Claim C2: for every file path and options value the command is built
in the fixed order base invocation, positional path, project-selector
flag (only when browser is set), headed flag (only when headless is
explicitly false), millisecond timeout flag (only when timeout is set);
and at the spec's example options the command carries, in order, the
path, the firefox project selector, the headed flag and the 60000
timeout flag. -/
theorem runTest_argument_order (path : String) (options : Option TestOptions) :
    runTestCommand path options =
      baseCommand ++ " " ++ path ++ projectFlag (optBrowser options) ++
        headedFlag (optHeadless options) ++ timeoutFlag (optTimeout options)
    ∧ (∀ b, projectFlag (some b) = " --project=" ++ browserName b)
    ∧ headedFlag (some false) = " --headed"
    ∧ (headedFlag (some true) = "" ∧ headedFlag none = "")
    ∧ (∀ t, 0 < t → timeoutFlag (some t) = " --timeout=" ++ toString t)
    ∧ (projectFlag none = "" ∧ timeoutFlag none = "")
    ∧ runTestCommand path
        (some ⟨some Browser.firefox, some false, none, some 60000⟩) =
        baseCommand ++ " " ++ path ++ " --project=firefox --headed --timeout=60000" := by
  refine ⟨runTestCommand_eq path options, fun b => rfl, rfl, ⟨rfl, rfl⟩,
    ?_, ⟨rfl, rfl⟩, ?_⟩
  · intro t htp
    simp [timeoutFlag, Nat.pos_iff_ne_zero.mp htp]
  · have h1 := runTestCommand_eq path
        (some ⟨some Browser.firefox, some false, none, some 60000⟩)
    have h2 : projectFlag (some Browser.firefox) ++
        (headedFlag (some false) ++ timeoutFlag (some 60000)) =
        " --project=firefox --headed --timeout=60000" := by decide
    rw [h1]
    simp only [optBrowser, optHeadless, optTimeout, String.append_assoc, h2]

/-- Witness for C2: the positive-timeout clause and the concrete example,
both at an explicit path and options value. -/
theorem runTest_argument_order_witness :
    timeoutFlag (some 60000) = " --timeout=" ++ toString 60000 ∧
    runTestCommand ("t.spec.ts")
        (some ⟨some Browser.firefox, some false, none, some 60000⟩) =
      baseCommand ++ " " ++ ("t.spec.ts") ++
        " --project=firefox --headed --timeout=60000" :=
  ⟨(runTest_argument_order ("t.spec.ts") none).2.2.2.2.1 60000 (by decide),
   (runTest_argument_order ("t.spec.ts") none).2.2.2.2.2.2⟩

/-- Claim C3: a rejected subprocess promise (non-zero exit carrying
partial output) still produces a returned TestResult — the model of
`runTest` is total over exec outcomes — with success false, error equal
to the failure's message (generic fallback when the failure carries
none), and logs carrying the stderr block after the stdout block. -/
theorem runTest_failure_resolves (path : String) (options : Option TestOptions)
    (durationMs : Nat) (stdout stderr message : Option String) (e : String)
    (hs : stderr = some e) (hne : e ≠ "") :
    (runTest path options durationMs (.exitErr stdout stderr message)).success =
      false
    ∧ (runTest path options durationMs (.exitErr stdout stderr message)).error =
        some (execErrorText message)
    ∧ (∀ m, message = some m → m ≠ "" → execErrorText message = m)
    ∧ (message = none → execErrorText message = execFallback)
    ∧ (runTest path options durationMs (.exitErr stdout stderr message)).logs =
        [cmdLogLabel ++ runTestCommand path options] ++ stdoutBlockOpt stdout ++
          [stderrMarker, e] := by
  subst hs
  refine ⟨?_, ?_, ?_, ?_, ?_⟩
  · simp [runTest]
  · rcases message with _ | m <;> simp [runTest, execErrorText]
  · intro m hm hm2
    subst hm
    simp [execErrorText, hm2]
  · intro hm
    subst hm
    simp [execErrorText]
  · rcases stdout with _ | s
    · simp [runTest, stdoutBlockOpt, hne]
    · by_cases hsz : s = "" <;> simp [runTest, stdoutBlockOpt, hne, hsz]

/-- Witness for C3 at a concrete failed run with stderr
`Timeout 30000ms exceeded` and no message on the error object. -/
theorem runTest_failure_resolves_witness :
    (runTest ("t.spec.ts") none 5
        (.exitErr none (some ("Timeout 30000ms exceeded")) none)).success = false
    ∧ (runTest ("t.spec.ts") none 5
        (.exitErr none (some ("Timeout 30000ms exceeded")) none)).error =
        some (execErrorText none)
    ∧ (runTest ("t.spec.ts") none 5
        (.exitErr none (some ("Timeout 30000ms exceeded")) none)).logs =
        [cmdLogLabel ++ runTestCommand ("t.spec.ts") none] ++
          stdoutBlockOpt none ++ [stderrMarker, "Timeout 30000ms exceeded"] :=
  ⟨(runTest_failure_resolves ("t.spec.ts") none 5 none
      (some ("Timeout 30000ms exceeded")) none ("Timeout 30000ms exceeded")
      rfl (by decide)).1,
   (runTest_failure_resolves ("t.spec.ts") none 5 none
      (some ("Timeout 30000ms exceeded")) none ("Timeout 30000ms exceeded")
      rfl (by decide)).2.1,
   (runTest_failure_resolves ("t.spec.ts") none 5 none
      (some ("Timeout 30000ms exceeded")) none ("Timeout 30000ms exceeded")
      rfl (by decide)).2.2.2.2⟩

/-- Claim C4: when options are set the compiled user prompt is the
preamble followed by one directive line per set field in the fixed order
browser, headless, screenshot, timeout; unset fields contribute no line;
and at the spec's example options the prompt carries, in order, the
firefox browser line, the disabled headless line, the enabled screenshot
line and the 60000ms timeout line. -/
theorem createPrompt_option_directive_lines (baseUrl : Option String)
    (scenario : TestScenario) (o : TestOptions)
    (ho : scenario.options = some o) :
    (createPrompt baseUrl scenario).user =
      promptHeader ++ scenario.description ++ "\n\n" ++
        urlLine scenario.url baseUrl ++
        (browserLine o.browser ++ headlessLine o.headless ++
          screenshotLine o.screenshot ++ timeoutLine o.timeout)
    ∧ (browserLine none = "" ∧ headlessLine none = "" ∧
        screenshotLine none = "" ∧ timeoutLine none = "")
    ∧ (createPrompt none
        ⟨scenario.description, none,
          some ⟨some Browser.firefox, some false, some true,
            some 60000⟩⟩).user =
      promptHeader ++ scenario.description ++ "\n\n" ++
        "- ブラウザ: firefox\n- ヘッドレスモード: 無効\n- スクリーンショット: 有効\n- タイムアウト: 60000ms\n" := by
  refine ⟨?_, ⟨rfl, rfl, rfl, rfl⟩, ?_⟩
  · rw [createPrompt_user_eq]
    simp [ho, optionsPart, optionLines, String.append_assoc]
  · rw [createPrompt_user_eq]
    have h2 : browserLine (some Browser.firefox) ++
        (headlessLine (some false) ++ (screenshotLine (some true) ++
          timeoutLine (some 60000))) =
        "- ブラウザ: firefox\n- ヘッドレスモード: 無効\n- スクリーンショット: 有効\n- タイムアウト: 60000ms\n" := by
      decide
    simp only [urlLine, strTruthy, optionsPart, optionLines,
      String.append_assoc, String.append_empty, String.empty_append, h2]

/-- Witness for C4 at a concrete scenario with all four options set. -/
theorem createPrompt_option_directive_lines_witness :
    (createPrompt none
        ⟨"ログインページのテスト", none,
          some ⟨some Browser.firefox, some false, some true,
            some 60000⟩⟩).user =
      promptHeader ++ "ログインページのテスト" ++ "\n\n" ++
        "- ブラウザ: firefox\n- ヘッドレスモード: 無効\n- スクリーンショット: 有効\n- タイムアウト: 60000ms\n" :=
  (createPrompt_option_directive_lines none
    ⟨"ログインページのテスト", none,
      some ⟨some Browser.firefox, some false, some true, some 60000⟩⟩
    ⟨some Browser.firefox, some false, some true, some 60000⟩ rfl).2.2

/-- Claim C5: the compiled user prompt decomposes around a single
target-URL slot, which carries the scenario URL when that is truthy,
else the ambient default base URL when that is truthy, and is empty when
neither is available. -/
theorem createPrompt_target_url_line (baseUrl : Option String)
    (scenario : TestScenario) :
    (createPrompt baseUrl scenario).user =
      promptHeader ++ scenario.description ++ "\n\n" ++
        urlLine scenario.url baseUrl ++ optionsPart scenario.options
    ∧ (∀ u, strTruthy scenario.url = some u →
        urlLine scenario.url baseUrl = urlLabel ++ u ++ "\n\n")
    ∧ (strTruthy scenario.url = none →
        ∀ b, strTruthy baseUrl = some b →
          urlLine scenario.url baseUrl = urlLabel ++ b ++ "\n\n")
    ∧ (strTruthy scenario.url = none → strTruthy baseUrl = none →
        urlLine scenario.url baseUrl = "") := by
  refine ⟨createPrompt_user_eq baseUrl scenario, ?_, ?_, ?_⟩
  · intro u hu
    simp [urlLine, hu]
  · intro h1 b hb
    simp [urlLine, h1, hb]
  · intro h1 h2
    simp [urlLine, h1, h2]

/-- Witness for C5 at a scenario with no URL and no ambient base URL. -/
theorem createPrompt_target_url_line_witness :
    urlLine none none = "" ∧
    (createPrompt none ⟨"d", none, none⟩).user =
      promptHeader ++ "d" ++ "\n\n" ++ urlLine none none ++ optionsPart none :=
  ⟨(createPrompt_target_url_line none ⟨"d", none, none⟩).2.2.2 rfl rfl,
   (createPrompt_target_url_line none ⟨"d", none, none⟩).1⟩

/-- Claim C6: on a non-successful provider response `generateTestCode`
fails with a provider error whose message embeds the upstream
`error.message` when the error body exposes a truthy one, else the
response's status text; with body error message `bad request` the final
rejection message contains `bad request`. -/
theorem generateTestCode_http_error_message (r : ProviderResponse)
    (h : r.ok = false) :
    generateTestCode r = .error (generateFailureText ++ apiErrorText r)
    ∧ (∀ m, r.errorMessage = some m → m ≠ "" →
        apiErrorText r = "API error: " ++ m)
    ∧ (r.errorMessage = none →
        apiErrorText r = "API error: " ++ r.statusText)
    ∧ (r.errorMessage = some "" →
        apiErrorText r = "API error: " ++ r.statusText)
    ∧ (r.errorMessage = some ("bad request") →
        ∃ pre post, (generateFailureText ++ apiErrorText r).data =
          pre ++ ("bad request").data ++ post) := by
  refine ⟨?_, ?_, ?_, ?_, ?_⟩
  · simp [generateTestCode, h]
  · intro m hm hm2
    simp [apiErrorText, hm, hm2]
  · intro hm
    simp [apiErrorText, hm]
  · intro hm
    simp [apiErrorText, hm]
  · intro hm
    refine ⟨(generateFailureText ++ "API error: ").data, [], ?_⟩
    simp [apiErrorText, hm, String.data_append, List.append_assoc]

/-- Witness for C6 at a concrete non-2xx response whose error body
exposes the message `bad request`. -/
theorem generateTestCode_http_error_message_witness :
    generateTestCode ⟨false, "Bad Request", some ("bad request"), ""⟩ =
      .error (generateFailureText ++
        apiErrorText ⟨false, "Bad Request", some ("bad request"), ""⟩)
    ∧ apiErrorText ⟨false, "Bad Request", some ("bad request"), ""⟩ =
      "API error: " ++ "bad request" :=
  ⟨(generateTestCode_http_error_message
      ⟨false, "Bad Request", some ("bad request"), ""⟩ rfl).1,
   (generateTestCode_http_error_message
      ⟨false, "Bad Request", some ("bad request"), ""⟩ rfl).2.1
      ("bad request") rfl (by decide)⟩

/-- Claim C7: persisting a generated test and reading the written path
back yields exactly the code string; the path lives under the fixed
artifacts directory, with the caller's filename when it is non-empty and
the timestamp-derived default otherwise. -/
theorem saveTestFile_roundtrip (cwd : String) (now : Nat) (fs : FileSystem)
    (test : GeneratedTest) :
    readFile (saveTestFile cwd now fs test).1 (saveTestFile cwd now fs test).2 =
      some test.code
    ∧ (saveTestFile cwd now fs test).2 =
        testDirPath cwd ++ "/" ++ effectiveFilename test now
    ∧ (test.filename ≠ "" → effectiveFilename test now = test.filename)
    ∧ (test.filename = "" → effectiveFilename test now = defaultFilename now) := by
  refine ⟨?_, rfl, ?_, ?_⟩
  · simp [saveTestFile, writeFile, readFile]
  · intro h
    simp [effectiveFilename, h]
  · intro h
    simp [effectiveFilename, h]

/-- Witness for C7 at a concrete test file with an explicit filename and
one relying on the timestamp default. -/
theorem saveTestFile_roundtrip_witness :
    readFile
      (saveTestFile ("/w") 7 [] ⟨"const a = 1;", "a.spec.ts", none⟩).1
      (saveTestFile ("/w") 7 [] ⟨"const a = 1;", "a.spec.ts", none⟩).2 =
        some "const a = 1;"
    ∧ effectiveFilename ⟨"const a = 1;", "a.spec.ts", none⟩ 7 = "a.spec.ts"
    ∧ effectiveFilename ⟨"", "", none⟩ 7 = defaultFilename 7 :=
  ⟨(saveTestFile_roundtrip ("/w") 7 []
      ⟨"const a = 1;", "a.spec.ts", none⟩).1,
   (saveTestFile_roundtrip ("/w") 7 []
      ⟨"const a = 1;", "a.spec.ts", none⟩).2.2.1 (by decide),
   (saveTestFile_roundtrip ("/w") 7 [] ⟨"", "", none⟩).2.2.2 rfl⟩

/-- Claim C8: the formatter is a pure function — two calls on the same
result are identical — and the report is the status part (success marker,
or failure marker plus the error line when a truthy error is present),
the duration line, the literal log-section header, and the logs joined
with newline separators. -/
theorem formatTestResult_report_shape (result : TestResult) :
    formatTestResult result = formatTestResult result
    ∧ formatTestResult result =
        statusPart result ++ durationPart result.duration ++ logHeader ++
          String.intercalate "\n" result.logs := by
  refine ⟨rfl, ?_⟩
  obtain ⟨succ, dur, err, sp, logs⟩ := result
  cases succ <;> rcases err with _ | e <;>
  (try by_cases hez : e = "") <;>
  simp_all [formatTestResult, statusPart, durationPart, String.append_assoc,
    String.append_empty, String.empty_append, -String.reduceAppend]

/-- Claim C9: the command string and its command-line log entry do not
depend on the screenshot option — two options values equal outside
screenshot produce identical invocations. -/
theorem runTest_command_screenshot_independent (path : String)
    (o1 o2 : TestOptions) (hb : o1.browser = o2.browser)
    (hh : o1.headless = o2.headless) (ht : o1.timeout = o2.timeout) :
    runTestCommand path (some o1) = runTestCommand path (some o2)
    ∧ cmdLogLabel ++ runTestCommand path (some o1) =
        cmdLogLabel ++ runTestCommand path (some o2) := by
  obtain ⟨b1, h1, s1, t1⟩ := o1
  obtain ⟨b2, h2, s2, t2⟩ := o2
  simp only at hb hh ht
  subst hb
  subst hh
  subst ht
  exact ⟨rfl, rfl⟩

/-- Witness for C9 at two concrete options values differing only in the
screenshot field. -/
theorem runTest_command_screenshot_independent_witness :
    runTestCommand ("t.spec.ts")
        (some ⟨some Browser.firefox, some false, some true, some 60000⟩) =
      runTestCommand ("t.spec.ts")
        (some ⟨some Browser.firefox, some false, some false, some 60000⟩) :=
  (runTest_command_screenshot_independent ("t.spec.ts")
    ⟨some Browser.firefox, some false, some true, some 60000⟩
    ⟨some Browser.firefox, some false, some false, some 60000⟩
    rfl rfl rfl).1

/-- Claim C10: for a successful result the report carries no error line
even when the error field is present — the formatted output is the fixed
success shape and is independent of the error field. -/
theorem formatTestResult_success_no_error_line (result : TestResult)
    (h : result.success = true) :
    formatTestResult result =
      successLine ++ durationPart result.duration ++ logHeader ++
        String.intercalate "\n" result.logs
    ∧ ∀ e, formatTestResult { result with error := e } =
        formatTestResult result := by
  obtain ⟨succ, dur, err, sp, logs⟩ := result
  simp only at h
  subst h
  refine ⟨?_, ?_⟩
  · simp [formatTestResult, durationPart, String.append_assoc,
      String.empty_append, -String.reduceAppend]
  · intro e
    simp [formatTestResult]

/-- Witness for C10 at a successful result whose error field is set. -/
theorem formatTestResult_success_no_error_line_witness :
    formatTestResult ⟨true, 12, some ("boom"), none, ["a", "b"]⟩ =
      successLine ++ durationPart 12 ++ logHeader ++
        String.intercalate "\n" ["a", "b"] :=
  (formatTestResult_success_no_error_line
    ⟨true, 12, some ("boom"), none, ["a", "b"]⟩ rfl).1

end PlaywrightAI
